import Mathlib

/-!
# IZI LAB — extraction / normalization pipeline, shallow embedding

Shallow embedding of the core data-shaping logic of the izilab repository:

* the types from the shared type module (`LabResultItem`, `NonLabData`,
  `AnalyzedExam`, `AnalysisState`);
* `analyzeLabExam` in `src/services/geminiService.ts` — the credential
  check, the response-shape handling, and the per-record normalization
  with its documented defaults;
* `processAnalysis`, `handleRemoveExam` — the session state updates in the
  application component (`src/unnamed/part_001`);
* `SYSTEM_CATEGORIES`, `getCategory` and the `PatientCard` clipboard text
  generation in `src/unnamed/part_002`.

JavaScript peculiarities that matter are modelled explicitly: `x || d`
on a string treats both `undefined`/`null` and `""` as falsy, while an
empty *array* is truthy; these show up as `jsOrStr` and `Option` matches
below.
-/

namespace IziLab

/-- The abnormality field from the shared types: HIGH, LOW or NORMAL. -/
inductive Abnormality where
  | HIGH
  | LOW
  | NORMAL
deriving DecidableEq, Repr

/-- `LabResultItem` from the shared types: `referenceRange` is optional. -/
structure LabResultItem where
  abbreviation : String
  value : String
  referenceRange : Option String
  abnormality : Abnormality
deriving DecidableEq, Repr

/-- `NonLabData` from the shared types. -/
structure NonLabData where
  examTitle : String
  mainFindings : List String
  impression : String
deriving DecidableEq, Repr

/-- `AnalyzedExam` from the shared types. `category` is kept as a `String`
(`"LAB"` or `"NON_LAB"`) because the code compares it with `===` against
string literals; `collectionDate` is optional in TypeScript but every
producer fills it with `""` when absent, so it is a plain `String` here. -/
structure AnalyzedExam where
  id : String
  patientInitials : String
  patientAge : String
  collectionDate : String
  category : String
  results : List LabResultItem
  nonLabData : Option NonLabData
  rawSummary : String
deriving DecidableEq, Repr

/-- `AnalysisState.status`. -/
inductive Status where
  | idle
  | analyzing
  | success
  | error
deriving DecidableEq, Repr

/-- `AnalysisState` from the shared types: `data` is `AnalyzedExam[] | null`,
`error` an optional string. -/
structure AnalysisState where
  status : Status
  data : Option (List AnalyzedExam)
  error : Option String
deriving DecidableEq, Repr

/-- JavaScript `o || d` for an optional string field: `undefined`/`null`
and the empty string are falsy and select the default. -/
def jsOrStr (o : Option String) (d : String) : String :=
  match o with
  | none => d
  | some s => if s = "" then d else s

/-- A raw extraction object as parsed from the model response
(`geminiService.ts`): every field the normalization step reads may be
absent, except that schema-required sub-fields of lab results are present. -/
structure RawPatientData where
  patientInitials : Option String
  patientAge : Option String
  collectionDate : Option String
  category : Option String
  labResults : Option (List LabResultItem)
  nonLabData : Option NonLabData
deriving DecidableEq, Repr

/-- The lab-side fallback summary (`geminiService.ts` lines 230-232):
a slash-join of the lab results when the field is present, the fallback
string otherwise — an empty array is truthy in JavaScript, so only an
absent field yields the fallback. -/
def labResultsSummary : Option (List LabResultItem) → String
  | some rs => String.intercalate " / " (rs.map (fun r => r.abbreviation ++ " " ++ r.value))
  | none => "Sem dados"

/-- `summaryString` (`geminiService.ts` lines 226-233): the NON_LAB branch
requires both a category equal to NON_LAB and a truthy nonLabData. -/
def summaryString (p : RawPatientData) : String :=
  if p.category = some "NON_LAB" then
    match p.nonLabData with
    | some d => d.examTitle ++ ": " ++ d.impression
    | none => labResultsSummary p.labResults
  else
    labResultsSummary p.labResults

/-- Normalization of one raw extraction object into an `AnalyzedExam`
(`geminiService.ts` lines 235-244), with the generated id supplied. -/
def normalizeRecord (freshId : String) (p : RawPatientData) : AnalyzedExam :=
  { id := freshId
    patientInitials := jsOrStr p.patientInitials "N/A"
    patientAge := jsOrStr p.patientAge ""
    collectionDate := jsOrStr p.collectionDate ""
    category := jsOrStr p.category "LAB"
    results := p.labResults.getD []
    nonLabData := p.nonLabData
    rawSummary := summaryString p }

/-- The successfully parsed JSON response: either an array of raw objects
or a single object (`JSON.parse` output shape). -/
inductive ParsedJson where
  | arr (records : List RawPatientData)
  | obj (record : RawPatientData)
deriving Repr

/-- `Array.isArray(parsedData) ? parsedData : [parsedData]`
(`geminiService.ts` line 222). -/
def toResultsArray : ParsedJson → List RawPatientData
  | .arr rs => rs
  | .obj r => [r]

/-- Map normalization over the batch, generating one fresh id per record
(`crypto.randomUUID()` is modelled by an id generator indexed by
position). -/
def normalizeBatch (idGen : Nat → String) (rs : List RawPatientData) : List AnalyzedExam :=
  rs.enum.map (fun p => normalizeRecord (idGen p.1) p.2)

/-- Outcome of everything in `analyzeLabExam` between the credential check
and the final mapping: input normalization (`fileToBase64`, outside the
`try` block, propagates its own error), the network call, the empty-text
check and `JSON.parse` (all inside the `try` block, rewrapped into one
generic message). -/
inductive PipelineOutcome where
  | normFailure (e : String)
  | serviceFailure
  | emptyText
  | parseFailure
  | parsed (data : ParsedJson)

/-- The user-facing message thrown by the `catch` block of
`analyzeLabExam`. -/
def extractionErrorMsg : String := "Não foi possível processar o documento. Tente novamente."

/-- The configuration error thrown when the API credential is falsy. -/
def missingKeyMsg : String := "Chave de API não configurada."

/-- `analyzeLabExam` (`geminiService.ts` lines 94-251) as a function of the
environment credential and the outcome of the effectful middle section.
The credential check `!import.meta.env.GEMINI_API_KEY` fires on an absent
or empty string and precedes input normalization and the network call, so
the error branch ignores `outcome` entirely. -/
def analyzeLabExam (apiKey : Option String) (outcome : PipelineOutcome)
    (idGen : Nat → String) : Except String (List AnalyzedExam) :=
  if apiKey = none ∨ apiKey = some "" then
    .error missingKeyMsg
  else
    match outcome with
    | .normFailure e => .error e
    | .serviceFailure => .error extractionErrorMsg
    | .emptyText => .error extractionErrorMsg
    | .parseFailure => .error extractionErrorMsg
    | .parsed p => .ok (normalizeBatch idGen (toResultsArray p))

/-- Fallback error message in `processAnalysis` when the thrown error has a
falsy `message`. -/
def unknownErrorMsg : String := "Ocorreu um erro desconhecido ao processar o exame."

/-- `processAnalysis` (`src/unnamed/part_001` lines 90-123), reduced to its
state transition: given the prior session data and the result of
`analyzeLabExam`, the state that `setState` installs when the call settles.
On success the new records are appended to `existingData` (an empty array
is truthy, `null` is not — both append paths produce the same list); on
failure the state becomes `error` with `data: null` and
`error.message || unknownErrorMsg`. -/
def processAnalysis (existingData : Option (List AnalyzedExam))
    (result : Except String (List AnalyzedExam)) : AnalysisState :=
  match result with
  | .ok newResultsArray =>
      let finalData :=
        match existingData with
        | some d => d ++ newResultsArray
        | none => newResultsArray
      { status := .success, data := some finalData, error := none }
  | .error e =>
      { status := .error, data := none
        error := some (if e = "" then unknownErrorMsg else e) }

/-- `handleRemoveExam` (`src/unnamed/part_001` lines 159-171): filter the
record out by id; when the list becomes empty, fall back to the idle state
with `data: null` (spreading the rest of `prev`). -/
def handleRemoveExam (id : String) (prev : AnalysisState) : AnalysisState :=
  match prev.data with
  | none => prev
  | some d =>
      let newData := d.filter (fun item => item.id != id)
      if newData.isEmpty then
        { prev with status := .idle, data := none }
      else
        { prev with data := some newData }

/-- `SYSTEM_CATEGORIES` (`src/unnamed/part_002` lines 840-852), as an
ordered association list — `Object.entries` iterates string keys in
insertion order. -/
def SYSTEM_CATEGORIES : List (String × List String) :=
  [ ("HEMOGRAMA", ["Hb", "Ht", "VCM", "HCM", "CHCM", "RDW", "Leuco", "Neut", "Linf", "Mono", "Eos", "Plq", "MPV"])
  , ("RENAL", ["Ur", "Cr", "Cist-C"])
  , ("ELETRÓLITOS", ["Na", "K", "Ca", "Mg", "P", "Cl", "Cálcio Ion"])
  , ("METABÓLICO", ["Glic", "HbA1c", "Homa-IR", "Insul", "Lac", "Lactato"])
  , ("LIPIDOGRAMA", ["Col-T", "HDL", "LDL", "TG", "VLDL"])
  , ("HEPÁTICO", ["TGO", "TGP", "GGT", "FA", "Bil-T", "Bil-D", "Bil-I", "Albumina", "Proteínas"])
  , ("HORMONAL", ["TSH", "T4L", "T3", "Vit-D", "Vit-B12", "PTH", "Cortisol"])
  , ("INFLAMATÓRIO", ["PCR", "VHS", "Ferr", "Fibrin", "Proc"])
  , ("CARDÍACO", ["Trop", "CK-MB", "BNP", "CK"])
  , ("GASOMETRIA", ["pH", "pO2", "pCO2", "HCO3", "BE", "SatO2"])
  , ("URINA", ["EAS", "Leuco-U", "Hem-U", "Prot-U"]) ]

/-- `getCategory` (`src/unnamed/part_002` lines 855-860): first category
whose item list contains the abbreviation, else the catch-all OUTROS. -/
def getCategory (abbr : String) : String :=
  match SYSTEM_CATEGORIES.find? (fun p => p.2.contains abbr) with
  | some p => p.1
  | none => "OUTROS"

/-- `formatValue` (`src/unnamed/part_002` line 970):
a global single-character regex replace of the literal dot: every dot
character in the value becomes a comma. -/
def formatValue (val : String) : String :=
  String.mk (val.data.map (fun c => if c = '.' then ',' else c))

/-- The two `new Date()` accessors `PatientCard` reads: `getDate()` is the
day of month, `getMonth()` the zero-based month. -/
structure JsDate where
  getDate : Nat
  getMonth : Nat
deriving DecidableEq, Repr

/-- padStart of the decimal string to two characters with a zero digit. -/
def pad2 (n : Nat) : String :=
  let s := toString n
  if s.length < 2 then "0" ++ s else s

/-- `dateStr` (`src/unnamed/part_002` lines 947-948):
`exam.collectionDate || dd/mm-of-today`, both components zero-padded and
the month shifted to one-based. -/
def dateStr (collectionDate : String) (today : JsDate) : String :=
  if collectionDate = "" then
    pad2 today.getDate ++ "/" ++ pad2 (today.getMonth + 1)
  else
    collectionDate

/-- JavaScript `trim()` as applied to the full-summary body: strip
whitespace characters from both ends (the body only ever carries a
trailing newline there). -/
def jsTrim (s : String) : String :=
  String.mk (((s.data.dropWhile Char.isWhitespace).reverse.dropWhile Char.isWhitespace).reverse)

/-- The conditional reference suffix of a rendered item — an absent or
empty-string range is falsy and renders nothing. -/
def refSuffix : Option String → String
  | some r => if r = "" then "" else " (Ref: " ++ r ++ ")"
  | none => ""

/-- The three clipboard-oriented values `PatientCard` computes
(`src/unnamed/part_002` lines 950-1004). -/
structure CardTexts where
  fullClipboardText : String
  abnormalClipboardText : String
  hasAbnormal : Bool
deriving DecidableEq, Repr

/-- The body text of one grouped category line in the full summary. -/
def categoryLine (cat : String) (items : List LabResultItem) : String :=
  let lineItems := String.intercalate " / "
    (items.map (fun item =>
      item.abbreviation ++ " " ++ formatValue item.value ++ refSuffix item.referenceRange))
  let catLabel := if cat = "OUTROS" then "" else cat ++ ": "
  catLabel ++ lineItems ++ "\n"

/-- The text generation of the PatientCard component (`src/unnamed/part_002`
lines 950-1004) as a pure function of the record and the current date. In the LAB
branch, results are grouped by `getCategory` (the `forEach`-built record
preserves within-category order, so each group is a stable filter) and the
categories are emitted in declaration order with OUTROS last, skipping
empty groups; the NON_LAB branch leaves
`abnormalClipboardText` at its `""` initializer and `hasAbnormal` false. -/
def patientCardTexts (exam : AnalyzedExam) (today : JsDate) : CardTexts :=
  let ds := dateStr exam.collectionDate today
  if exam.category = "LAB" then
    let abnormalResults := exam.results.filter
      (fun item => item.abnormality == Abnormality.HIGH || item.abnormality == Abnormality.LOW)
    let hasAbnormal := abnormalResults.length > 0
    let categoriesOrder := SYSTEM_CATEGORIES.map Prod.fst ++ ["OUTROS"]
    let grouped := fun cat => exam.results.filter (fun item => getCategory item.abbreviation == cat)
    let fullTextBody := String.join
      ((categoriesOrder.filter (fun cat => !(grouped cat).isEmpty)).map
        (fun cat => categoryLine cat (grouped cat)))
    let fullClipboardText :=
      exam.patientInitials ++ " - Lab (" ++ ds ++ "):\n" ++ jsTrim fullTextBody
    let abnormalFormattedText := String.intercalate " / "
      (abnormalResults.map (fun item =>
        let arrow := if item.abnormality == Abnormality.HIGH then "↑" else "↓"
        item.abbreviation ++ " " ++ formatValue item.value ++ " " ++ arrow))
    let abnormalClipboardText :=
      exam.patientInitials ++ " - Lab (" ++ ds ++ ") - ALTERAÇÕES: " ++ abnormalFormattedText
    { fullClipboardText := fullClipboardText
      abnormalClipboardText := abnormalClipboardText
      hasAbnormal := hasAbnormal }
  else
    let title :=
      match exam.nonLabData with
      | some d => if d.examTitle = "" then "Laudo Médico" else d.examTitle
      | none => "Laudo Médico"
    let findings :=
      match exam.nonLabData with
      | some d => String.intercalate "\n" (d.mainFindings.map (fun f => "• " ++ f))
      | none => ""
    let conclusion :=
      match exam.nonLabData with
      | some d => d.impression
      | none => ""
    { fullClipboardText :=
        exam.patientInitials ++ " - " ++ title ++ " (" ++ ds ++ "):\n\nACHADOS:\n"
          ++ findings ++ "\n\nCONCLUSÃO:\n" ++ conclusion
      abnormalClipboardText := ""
      hasAbnormal := false }

/-! ## Concrete fixtures used by witnesses and counterexamples -/

/-- A concrete LAB record with one normal, one high and one low result. -/
def hbNaK : AnalyzedExam :=
  { id := "id-1"
    patientInitials := "MR"
    patientAge := "45 anos"
    collectionDate := "01/02"
    category := "LAB"
    results :=
      [ { abbreviation := "Hb", value := "12", referenceRange := none, abnormality := .NORMAL }
      , { abbreviation := "Na", value := "150", referenceRange := none, abnormality := .HIGH }
      , { abbreviation := "K", value := "2.9", referenceRange := none, abnormality := .LOW } ]
    nonLabData := none
    rawSummary := "Hb 12 / Na 150 / K 2.9" }

/-- A concrete NON_LAB record with populated narrative content. -/
def mriExam : AnalyzedExam :=
  { id := "id-2"
    patientInitials := "JS"
    patientAge := ""
    collectionDate := "03/04"
    category := "NON_LAB"
    results := []
    nonLabData := some
      { examTitle := "Ressonância Magnética de Crânio"
        mainFindings := ["Lesão focal", "Sem desvio de linha média"]
        impression := "Achados compatíveis com processo expansivo" }
    rawSummary := "Ressonância Magnética de Crânio: Achados compatíveis com processo expansivo" }

/-- A concrete LAB record with an empty collection date and one normal
result. -/
def emptyDateExam : AnalyzedExam :=
  { id := "id-3"
    patientInitials := "MR"
    patientAge := ""
    collectionDate := ""
    category := "LAB"
    results :=
      [ { abbreviation := "Hb", value := "12", referenceRange := none, abnormality := .NORMAL } ]
    nonLabData := none
    rawSummary := "Hb 12" }

/-- A raw extraction object declaring category LAB and omitting
`labResults`. -/
def rawLabNoResults : RawPatientData :=
  { patientInitials := some "MR"
    patientAge := some "45 anos"
    collectionDate := some "01/02"
    category := some "LAB"
    labResults := none
    nonLabData := none }

/-! ## C1 — failure handling in `processAnalysis` -/

/-- C1 counterexample: the claim says a failed extraction leaves the prior
record list unchanged, but `processAnalysis` installs `data: null` on
failure. With one prior record and a failing call, the resulting data is
not the prior list. -/
theorem processAnalysis_failure_not_preserving :
    (processAnalysis (some [hbNaK]) (.error "boom")).data ≠ some [hbNaK] := by
  decide

/-- C1 (amended): for every prior record list and every extraction failure
with a non-empty message, `processAnalysis` transitions the session to the
error state with the record list cleared (`data = null`) and the failure
message surfaced; prior records are discarded, not preserved. -/
theorem processAnalysis_failure_clears_data (prior : Option (List AnalyzedExam))
    (e : String) (h : e ≠ "") :
    processAnalysis prior (.error e)
      = { status := .error, data := none, error := some e } := by
  simp [processAnalysis, h]

/-- C1 witness: the amended theorem at a concrete prior list and message. -/
theorem processAnalysis_failure_clears_data_witness :
    processAnalysis (some [hbNaK]) (.error "boom")
      = { status := .error, data := none, error := some "boom" } :=
  processAnalysis_failure_clears_data (some [hbNaK]) "boom" (by decide)

/-! ## C2 — missing credential fails fast -/

/-- C2: if the extraction-service API credential is absent (or empty, the
other falsy string), `analyzeLabExam` returns the configuration error
whatever the input normalization, network call or parse would have
produced — the quantification over `outcome` expresses that the error is
raised before any of those steps can contribute, and no partial result is
produced. -/
theorem analyzeLabExam_missing_key (apiKey : Option String)
    (outcome : PipelineOutcome) (idGen : Nat → String)
    (h : apiKey = none ∨ apiKey = some "") :
    analyzeLabExam apiKey outcome idGen = .error missingKeyMsg := by
  unfold analyzeLabExam
  rw [if_pos h]

/-- C2 witness: an absent credential with a fully successful downstream
outcome still yields only the configuration error. -/
theorem analyzeLabExam_missing_key_witness :
    analyzeLabExam none (.parsed (.arr [rawLabNoResults])) (fun n => toString n)
      = .error missingKeyMsg :=
  analyzeLabExam_missing_key none (.parsed (.arr [rawLabNoResults]))
    (fun n => toString n) (Or.inl rfl)

/-! ## C3 — LAB defaults in normalization -/

/-- C3: a raw extraction object with category LAB and no `labResults`
field normalizes to a record with an empty results list and the documented
fallback `rawSummary` of `"Sem dados"`. -/
theorem normalizeRecord_lab_defaults (freshId : String) (p : RawPatientData)
    (hcat : p.category = some "LAB") (hres : p.labResults = none) :
    (normalizeRecord freshId p).results = []
      ∧ (normalizeRecord freshId p).rawSummary = "Sem dados" := by
  constructor
  · simp [normalizeRecord, hres]
  · simp [normalizeRecord, summaryString, hcat, labResultsSummary, hres]

/-- C3 witness: the defaults theorem at a concrete raw object. -/
theorem normalizeRecord_lab_defaults_witness :
    (normalizeRecord "id-1" rawLabNoResults).results = []
      ∧ (normalizeRecord "id-1" rawLabNoResults).rawSummary = "Sem dados" :=
  normalizeRecord_lab_defaults "id-1" rawLabNoResults rfl rfl

/-! ## C4 — removal empties the session -/

/-- C4: appending one record to an empty session (a successful
`processAnalysis` with no existing data) and then removing it by its id
returns the session to the empty idle state: `data` is null, the status is
idle, and no error remains. -/
theorem remove_after_single_append (r : AnalyzedExam) :
    handleRemoveExam r.id (processAnalysis none (.ok [r]))
      = { status := .idle, data := none, error := none } := by
  simp [processAnalysis, handleRemoveExam]

/-! ## C5 — category lookup coverage -/

/-- C5: every abbreviation listed in `SYSTEM_CATEGORIES` is mapped by
`getCategory` to the category under which it is listed, and every
abbreviation not listed anywhere is mapped to the catch-all OUTROS. -/
theorem getCategory_coverage :
    (∀ p ∈ SYSTEM_CATEGORIES, ∀ a ∈ p.2, getCategory a = p.1)
      ∧ (∀ a : String, (∀ p ∈ SYSTEM_CATEGORIES, a ∉ p.2) → getCategory a = "OUTROS") := by
  constructor
  · decide
  · intro a h
    unfold getCategory
    have hnone : SYSTEM_CATEGORIES.find? (fun p => p.2.contains a) = none := by
      rw [List.find?_eq_none]
      intro p hp
      simpa using h p hp
    rw [hnone]

/-- C5 witness: the coverage theorem at one listed abbreviation and one
unlisted one. -/
theorem getCategory_coverage_witness :
    getCategory "Hb" = "HEMOGRAMA" ∧ getCategory "Ferro" = "OUTROS" :=
  ⟨getCategory_coverage.1
      ("HEMOGRAMA", ["Hb", "Ht", "VCM", "HCM", "CHCM", "RDW", "Leuco", "Neut",
        "Linf", "Mono", "Eos", "Plq", "MPV"]) (by decide) "Hb" (by decide),
    getCategory_coverage.2 "Ferro" (by decide)⟩

/-! ## C6 — abnormal-only summary content -/

/-- C6: for the LAB record with results Hb NORMAL, Na HIGH, K LOW, the
abnormal-only summary contains exactly the Na entry with the up arrow and
the K entry with the down arrow, joined by the slash separator, and the Hb
entry does not occur anywhere in it. -/
theorem abnormal_summary_hbNaK :
    (patientCardTexts hbNaK ⟨5, 0⟩).abnormalClipboardText
        = "MR - Lab (01/02) - ALTERAÇÕES: Na 150 ↑ / K 2,9 ↓"
      ∧ ¬ ("Hb".data <:+: (patientCardTexts hbNaK ⟨5, 0⟩).abnormalClipboardText.data) := by
  decide

/-! ## C7 — NON_LAB records yield no abnormal summary -/

/-- C7: every NON_LAB record, whatever its narrative content and whatever
date it is rendered on, produces an empty abnormal-only summary and no
abnormal flag. -/
theorem nonLab_abnormal_empty (exam : AnalyzedExam) (today : JsDate)
    (h : exam.category = "NON_LAB") :
    (patientCardTexts exam today).abnormalClipboardText = ""
      ∧ (patientCardTexts exam today).hasAbnormal = false := by
  simp [patientCardTexts, h]

/-- C7 witness: the theorem at a concrete populated NON_LAB record. -/
theorem nonLab_abnormal_empty_witness :
    (patientCardTexts mriExam ⟨5, 0⟩).abnormalClipboardText = ""
      ∧ (patientCardTexts mriExam ⟨5, 0⟩).hasAbnormal = false :=
  nonLab_abnormal_empty mriExam ⟨5, 0⟩ rfl

/-! ## C8 — decimal formatting of rendered values -/

/-- C8: the value formatter of the full-summary rendering turns the
dot-separated decimal "12.5" into "12,5"; a value with no dot character is
rendered unchanged; and no dot survives formatting in any value. -/
theorem formatValue_decimal :
    formatValue "12.5" = "12,5"
      ∧ (∀ val : String, '.' ∉ val.data → formatValue val = val)
      ∧ (∀ val : String, '.' ∉ (formatValue val).data) := by
  refine ⟨by decide, ?_, ?_⟩
  · intro val h
    obtain ⟨l⟩ := val
    simp only [formatValue]
    congr 1
    have : ∀ c ∈ l, (if c = '.' then ',' else c) = c := by
      intro c hc
      have hne : c ≠ '.' := fun hcdot => h (by simpa [hcdot] using hc)
      simp [hne]
    simpa using List.map_congr_left this
  · intro val
    simp only [formatValue, String.data]
    intro hmem
    rw [List.mem_map] at hmem
    obtain ⟨c, _, hc⟩ := hmem
    by_cases hdot : c = '.'
    · simp [hdot] at hc
    · simp [hdot] at hc

/-- C8 witness: the unchanged-integer part of the theorem at a concrete
dot-free value. -/
theorem formatValue_decimal_witness : formatValue "150" = "150" :=
  formatValue_decimal.2.1 "150" (by decide)

/-! ## C10 — empty collection date falls back to the render-day date -/

/-- C10: a non-empty collection date is rendered unchanged in the card
headers, while an empty one is replaced by the current date as zero-padded
dd/mm (month shifted from the zero-based JavaScript convention); the
rendered header of a record with an empty date therefore differs between
render days, as the two concrete full summaries show. -/
theorem dateStr_fallback :
    (∀ (cd : String) (d : JsDate), cd ≠ "" → dateStr cd d = cd)
      ∧ (∀ d : JsDate, dateStr "" d = pad2 d.getDate ++ "/" ++ pad2 (d.getMonth + 1))
      ∧ (patientCardTexts emptyDateExam ⟨5, 0⟩).fullClipboardText
          = "MR - Lab (05/01):\nHEMOGRAMA: Hb 12"
      ∧ (patientCardTexts emptyDateExam ⟨6, 0⟩).fullClipboardText
          = "MR - Lab (06/01):\nHEMOGRAMA: Hb 12" := by
  refine ⟨?_, ?_, by decide, by decide⟩
  · intro cd d h
    unfold dateStr
    rw [if_neg h]
  · intro d
    unfold dateStr
    rw [if_pos rfl]

/-- C10 witness: the unchanged-date part of the theorem at a concrete
non-empty date. -/
theorem dateStr_fallback_witness : dateStr "01/02" ⟨5, 0⟩ = "01/02" :=
  dateStr_fallback.1 "01/02" ⟨5, 0⟩ (by decide)

/-! ## C9 — single-object responses are wrapped, not rejected -/

/-- C9: with a present credential, a response that parses to a single JSON
object instead of an array is not an error: `analyzeLabExam` wraps it into
a one-element array and returns exactly one normalized record. -/
theorem analyzeLabExam_single_object (apiKey : Option String)
    (h : ¬(apiKey = none ∨ apiKey = some "")) (r : RawPatientData)
    (idGen : Nat → String) :
    analyzeLabExam apiKey (.parsed (.obj r)) idGen
      = .ok [normalizeRecord (idGen 0) r] := by
  unfold analyzeLabExam
  rw [if_neg h]
  rfl

/-- C9 witness: the single-object theorem at a concrete credential, raw
object and id generator. -/
theorem analyzeLabExam_single_object_witness :
    analyzeLabExam (some "key") (.parsed (.obj rawLabNoResults)) (fun n => toString n)
      = .ok [normalizeRecord "0" rawLabNoResults] :=
  analyzeLabExam_single_object (some "key") (by decide) rawLabNoResults (fun n => toString n)

end IziLab
